import Mathlib

/-!
Verification development for the banking ledger application
(src/money_mangement.py).  The file shallowly embeds the core of the
program: the type normalizer (_sanitize_types), the aggregation engine
(_recompute_from_main), the serializer (_empty_frames, _load_workbook,
_to_excel_bytes) and the entry-form submit handler.

Modelling conventions:
- Python float values are modelled as exact rationals.
- A pandas NaN cell (a missing or unparsable value) is modelled as
  Option.none at the raw-row level; the normalizer fills it with 0.
- Two layers are used.  The structured layer models the ledger as a list
  of typed rows; it is faithful whenever the ledger table carries the
  canonical column set, which is the case on every path the structured
  claims quantify over.  The data-frame layer additionally models column
  names and column order, which the serializer claims depend on.
-/

/-- The two values the app ever writes into a Status cell.  Paid renders
as the string "Paid", NotPaid renders as the string "Not Paid". -/
inductive Status
| Paid
| NotPaid
deriving DecidableEq

/-- Rendering of a status value as the string stored by the app. -/
def statusStr : Status → String
| Status.Paid => "Paid"
| Status.NotPaid => "Not Paid"

/-- The lambda used at lines 85, 106 and 243 of the source:
x maps to "Paid" if x <= 0 else "Not Paid". -/
def statusOf (q : ℚ) : Status :=
  if q ≤ 0 then Status.Paid else Status.NotPaid

/-- A row of the Main Data (ledger) table after _sanitize_types: the
date cell is a parsed date or missing (NaT), the customer cell is text
or missing (NaN), the five numeric cells are numbers, and Status is one
of the two app-written strings. -/
structure Row where
  date : Option Int
  customer : Option String
  depositAmount : ℚ
  rate : ℚ
  totalAmount : ℚ
  amountPaid : ℚ
  outstanding : ℚ
  status : Status
deriving DecidableEq

/-- A raw ledger row as it may arrive from an uploaded file, before
_sanitize_types: each numeric cell is either a number or an unparsable
or missing value (none, which pd.to_numeric(errors="coerce") turns into
NaN and fillna turns into 0.0); the date cell is the result of
pd.to_datetime(errors="coerce").dt.date; the status cell is arbitrary
text, since the normalizer overrides it. -/
structure RawRow where
  date : Option Int
  customer : Option String
  depositAmount : Option ℚ
  rate : Option ℚ
  totalAmount : Option ℚ
  amountPaid : Option ℚ
  outstanding : Option ℚ
  status : String
deriving DecidableEq

/-- Model of _sanitize_types, lines 72-86, acting on one row of a table that
carries the canonical ledger columns: each numeric cell is coerced with
unparsable and missing values defaulting to 0.0, and Status is
recomputed from the (coerced) Outstanding cell, overriding the input
status. -/
def sanitizeRow (r : RawRow) : Row :=
  { date := r.date
    customer := r.customer
    depositAmount := r.depositAmount.getD 0
    rate := r.rate.getD 0
    totalAmount := r.totalAmount.getD 0
    amountPaid := r.amountPaid.getD 0
    outstanding := r.outstanding.getD 0
    status := statusOf (r.outstanding.getD 0) }

/-- Model of _sanitize_types on a whole ledger table.  The source returns an
empty frame unchanged (line 73-74); on a list of rows that early return
coincides with mapping over no rows, so the definition is uniform. -/
def sanitize (df : List RawRow) : List Row :=
  df.map sanitizeRow

/-- Reinjection of a typed row into the raw-row shape, used to feed a
previously sanitized ledger back through the engine (every cell is
present, and the status cell holds the string the app wrote). -/
def rawOfRow (r : Row) : RawRow :=
  { date := r.date
    customer := r.customer
    depositAmount := some r.depositAmount
    rate := some r.rate
    totalAmount := some r.totalAmount
    amountPaid := some r.amountPaid
    outstanding := some r.outstanding
    status := statusStr r.status }

/-- A row of the Customer Summary table (lines 99-107). -/
structure CustRow where
  customer : Option String
  totalDeposit : ℚ
  totalPaid : ℚ
  outstanding : ℚ
  status : Status
deriving DecidableEq

/-- The rows of the ledger belonging to one groupby("Customer",
dropna=False) group: the rows whose customer cell equals the key
(missing customers form their own group). -/
def customerGroup (l : List Row) (c : Option String) : List Row :=
  l.filter (fun r => r.customer == c)

/-- The distinct customer keys of the ledger.  pandas emits the groups
in sorted key order; the summary row order is presentation only (the
spec calls it not semantically significant), so the embedding uses the
deduplicated key list. -/
def customerKeys (l : List Row) : List (Option String) :=
  (l.map Row.customer).dedup

/-- The Customer Summary built by _recompute_from_main, lines 99-107:
one row per distinct customer, summing Deposit Amount, Amount Paid and
Outstanding over the group, with Status derived from the summed
Outstanding.  (The groupby also sums Total Amount into grp, but the
column selection at line 107 drops it.)  For an empty ledger the
groupby branch is skipped and the summary is the empty table, which
coincides with mapping over no keys. -/
def customerSummary (l : List Row) : List CustRow :=
  (customerKeys l).map (fun c =>
    { customer := c
      totalDeposit := ((customerGroup l c).map Row.depositAmount).sum
      totalPaid := ((customerGroup l c).map Row.amountPaid).sum
      outstanding := ((customerGroup l c).map Row.outstanding).sum
      status := statusOf (((customerGroup l c).map Row.outstanding).sum) })

/-- main["Amount Paid"].sum() (line 108; 0.0 for an empty ledger). -/
def paidTotal (l : List Row) : ℚ := (l.map Row.amountPaid).sum

/-- main["Outstanding"].sum() (line 109; 0.0 for an empty ledger). -/
def outstandingTotal (l : List Row) : ℚ := (l.map Row.outstanding).sum

/-- main["Total Amount"].sum() (line 110; 0.0 for an empty ledger). -/
def totalAmountSum (l : List Row) : ℚ := (l.map Row.totalAmount).sum

/-- Ledger-wide sum of the Deposit Amount column. -/
def totalDepositSum (l : List Row) : ℚ := (l.map Row.depositAmount).sum

/-- The Purchase Summary table of lines 113-128, as (Metric, Value)
pairs.  The percentage entries mirror the Python truthiness guard
(expr if total_amount_sum else 0.0): the division is only taken when
total_amount_sum is nonzero, otherwise the value is 0.0. -/
def purchaseSummary (l : List Row) : List (String × ℚ) :=
  [("Total Amount (Σ deposit*rate)", totalAmountSum l),
   ("Total Paid", paidTotal l),
   ("Total Outstanding", outstandingTotal l),
   ("Paid Share (%)",
     if totalAmountSum l = 0 then 0 else paidTotal l / totalAmountSum l * 100),
   ("Outstanding Share (%)",
     if totalAmountSum l = 0 then 0 else outstandingTotal l / totalAmountSum l * 100)]

/-- The Daily Summary table of lines 130-136, as (Metric, Value) pairs,
with Profit = Sum(Total Amount) - Total Paid - Expense - Other Expense. -/
def dailySummary (l : List Row) (expense otherExpense : ℚ) : List (String × ℚ) :=
  [("Expense", expense),
   ("Other Expense", otherExpense),
   ("Sum of Total Amount", totalAmountSum l),
   ("Total Paid", paidTotal l),
   ("Profit", totalAmountSum l - paidTotal l - expense - otherExpense)]

/-- The four-table bundle returned by _recompute_from_main. -/
structure Bundle where
  main : List Row
  customer : List CustRow
  purchase : List (String × ℚ)
  daily : List (String × ℚ)
deriving DecidableEq

/-- Model of _recompute_from_main, lines 89-138: sanitize the ledger, then build
the three derived tables from it.  The empty-ledger branch of the
source (empty summary, all totals 0.0) coincides with the sums over an
empty row list, so the definition is uniform. -/
def recomputeFromMain (mainDf : List RawRow) (expense otherExpense : ℚ) : Bundle :=
  let main := sanitize mainDf
  { main := main
    customer := customerSummary main
    purchase := purchaseSummary main
    daily := dailySummary main expense otherExpense }

/-- Reading a metric value out of a (Metric, Value) table by name; this
mirrors df.loc[df["Metric"] == name, "Value"].iloc[0] as used by the
dashboard at line 271 (first matching row). -/
def lookupMetric (t : List (String × ℚ)) (name : String) : Option ℚ :=
  (t.find? (fun p => p.1 == name)).map Prod.snd

/-- Python str.strip(): remove leading and trailing whitespace. -/
def pyStrip (s : String) : String :=
  ⟨((s.data.dropWhile Char.isWhitespace).reverse.dropWhile Char.isWhitespace).reverse⟩

/-- The row built by the entry-form submit handler, lines 235-244:
Total Amount = deposit * rate, Outstanding stored unclamped as
total_amount - amount_paid, Status derived from that unclamped value. -/
def newRow (entryDate : Option Int) (customer : String)
  (deposit rate amountPaid : ℚ) : Row :=
  { date := entryDate
    customer := some (pyStrip customer)
    depositAmount := deposit
    rate := rate
    totalAmount := deposit * rate
    amountPaid := amountPaid
    outstanding := deposit * rate - amountPaid
    status := statusOf (deposit * rate - amountPaid) }

/-- The submit handler, lines 231-248: a customer name that strips to
the empty string is rejected with an error and the session frames are
left untouched (modelled as none); otherwise the new row is appended to
the ledger and the session frames are replaced by the recomputed
bundle. -/
def addTransaction (mainDf : List Row) (expense otherExpense : ℚ)
  (entryDate : Option Int) (customer : String)
  (deposit rate amountPaid : ℚ) : Option Bundle :=
  if pyStrip customer = "" then none
  else
    some (recomputeFromMain
      ((mainDf ++ [newRow entryDate customer deposit rate amountPaid]).map rawOfRow)
      expense otherExpense)

/-- The live preview at line 222: outstanding = max(total_amount -
amount_paid, 0.0), clamped at zero. -/
def previewOutstanding (deposit rate amountPaid : ℚ) : ℚ :=
  max (deposit * rate - amountPaid) 0

/-- The live preview at line 223: "Paid" if the clamped outstanding is
<= 0 and total_amount > 0, else "Not Paid" if total_amount > 0, else
the placeholder "-". -/
def previewStatus (deposit rate amountPaid : ℚ) : String :=
  if previewOutstanding deposit rate amountPaid ≤ 0 ∧ 0 < deposit * rate then "Paid"
  else if 0 < deposit * rate then "Not Paid"
  else "-"

/-!
Data-frame layer.  The serializer claims depend on column names and
column order, so here a table is modelled the way pandas holds it: a
list of column names plus a list of rows, each row a list of cells
positionally aligned with the column list.
-/

/-- A spreadsheet cell: text, a number, a date, or empty (NaN/NaT). -/
inductive Cell
| str (s : String)
| num (q : ℚ)
| date (d : Int)
| blank
deriving DecidableEq

/-- A pandas DataFrame: named columns and positionally aligned rows. -/
structure DF where
  cols : List String
  rows : List (List Cell)
deriving DecidableEq

/-- The four-sheet dict the app passes around (MAIN_SHEET,
CUSTOMER_SHEET, PURCHASE_SHEET, DAILY_SHEET in insertion order). -/
structure Frames where
  main : DF
  customer : DF
  purchase : DF
  daily : DF
deriving DecidableEq

/-- MAIN_SHEET (line 40). -/
def mainSheet : String := "Main Data"

/-- CUSTOMER_SHEET (line 41). -/
def customerSheet : String := "Customer Summary"

/-- PURCHASE_SHEET (line 42). -/
def purchaseSheet : String := "Purchase Summary"

/-- DAILY_SHEET (line 43). -/
def dailySheet : String := "Daily Summary"

/-- The fixed ledger column order enforced at export (line 147), which
is also the canonical empty ledger schema (lines 50-52). -/
def mainColumns : List String :=
  ["Date", "Customer", "Deposit Amount", "Rate", "Total Amount",
   "Amount Paid", "Outstanding", "Status"]

/-- Model of _empty_frames, lines 49-56: the canonical empty table for each of
the four sheets (full declared column set, zero rows). -/
def emptyFrames : Frames :=
  { main := { cols := mainColumns, rows := [] }
    customer :=
      { cols := ["Customer", "Total Deposit", "Total Paid", "Outstanding", "Status"]
        rows := [] }
    purchase := { cols := ["Metric", "Value"], rows := [] }
    daily := { cols := ["Metric", "Value"], rows := [] } }

/-- Lookup of a named sheet in a workbook read as a dict of frames. -/
def sheetLookup (book : List (String × DF)) (name : String) : Option DF :=
  (book.find? (fun p => p.1 == name)).map Prod.snd

/-- Model of _load_workbook, lines 59-69.  The argument models the outcome of
pd.read_excel(file, sheet_name=None): some book when the file parses
into named sheets, none when reading raises.  The function starts from
the canonical empty frames and takes each of the four named sheets from
the book when present; any read failure degrades to the canonical empty
frames; it never propagates an exception. -/
def loadWorkbook (file : Option (List (String × DF))) : Frames :=
  match file with
  | none => emptyFrames
  | some book =>
    { main := (sheetLookup book mainSheet).getD emptyFrames.main
      customer := (sheetLookup book customerSheet).getD emptyFrames.customer
      purchase := (sheetLookup book purchaseSheet).getD emptyFrames.purchase
      daily := (sheetLookup book dailySheet).getD emptyFrames.daily }

/-- The cell of a row under a named column: index of the name in the
column list, then the cell at that index.  (Rows of a well-formed frame
have exactly one cell per column, so the default never fires there.) -/
def selectCell (cols : List String) (row : List Cell) (c : String) : Option Cell :=
  (cols.findIdx? (fun x => x == c)).bind (fun i => row.get? i)

/-- Column selection df[sel]: pandas raises a KeyError when a requested
name is absent (modelled as none); otherwise it rebuilds the frame with
the requested columns in the requested order. -/
def selectCols (df : DF) (sel : List String) : Option DF :=
  if sel.all (fun c => df.cols.contains c) then
    some { cols := sel
           rows := df.rows.map (fun row =>
             sel.map (fun c => (selectCell df.cols row c).getD Cell.blank)) }
  else none

/-- Model of _to_excel_bytes, lines 141-150.  The artifact is modelled as the
list of named sheets written to the workbook, in dict order.  The main
sheet is reordered to the fixed column order only when it is non-empty
(the guard at line 146); the other three sheets are written as they
are.  The reorder is a column selection, so it fails (none) when a
canonical column is missing from a non-empty main frame. -/
def toExcelBytes (f : Frames) : Option (List (String × DF)) :=
  match (if f.main.rows.isEmpty then some f.main else selectCols f.main mainColumns) with
  | none => none
  | some m =>
    some [(mainSheet, m), (customerSheet, f.customer),
          (purchaseSheet, f.purchase), (dailySheet, f.daily)]

/-- The numeric columns coerced by _sanitize_types (line 80). -/
def numericCols : List String :=
  ["Deposit Amount", "Rate", "Total Amount", "Amount Paid", "Outstanding"]

/-- pd.to_numeric(errors="coerce").fillna(0.0) on one cell.  Numbers
pass through; empty cells become 0.0; integer text parses (decimal text
is abstracted to 0, like unparsable text, since no theorem below feeds
text into a numeric column); a date cell converts to its numeric
representation. -/
def coerceNum : Cell → Cell
| Cell.num q => Cell.num q
| Cell.blank => Cell.num 0
| Cell.date d => Cell.num (d : ℚ)
| Cell.str s =>
  match s.toInt? with
  | some n => Cell.num (n : ℚ)
  | none => Cell.num 0

/-- pd.to_datetime(errors="coerce").dt.date on one cell: date cells
pass through; other cells are abstracted to NaT (no theorem below feeds
date-like text or numbers into the Date column). -/
def coerceDate : Cell → Cell
| Cell.date d => Cell.date d
| _ => Cell.blank

/-- Numeric reading of a cell (after coercion the numeric columns hold
only num cells; anything else reads as 0). -/
def qOf : Cell → ℚ
| Cell.num q => q
| _ => 0

/-- The per-cell action of _sanitize_types, dispatched on the name of
the column the cell sits in. -/
def sanitizeCell (c : String) (x : Cell) : Cell :=
  if c = "Date" then coerceDate x
  else if numericCols.contains c then coerceNum x
  else x

/-- The Status cell written from an outstanding value (line 85). -/
def statusCell (q : ℚ) : Cell :=
  Cell.str (if q ≤ 0 then "Paid" else "Not Paid")

/-- Model of _sanitize_types, lines 72-86, at the data-frame level: an empty
frame is returned unchanged; otherwise the Date column and the numeric
columns that are present are coerced cell by cell, and when an
Outstanding column is present the Status column is recomputed from it
(replacing the Status column in place when it exists, appending it
otherwise). -/
def sanitizeDF (df : DF) : DF :=
  if df.rows.isEmpty then df
  else
    let rows1 := df.rows.map (fun row =>
      (df.cols.zip row).map (fun p => sanitizeCell p.1 p.2))
    match df.cols.findIdx? (fun c => c == "Outstanding") with
    | none => { cols := df.cols, rows := rows1 }
    | some i =>
      match df.cols.findIdx? (fun c => c == "Status") with
      | some j =>
        { cols := df.cols
          rows := rows1.map (fun row =>
            row.set j (statusCell (qOf ((row.get? i).getD Cell.blank)))) }
      | none =>
        { cols := df.cols ++ ["Status"]
          rows := rows1.map (fun row =>
            row ++ [statusCell (qOf ((row.get? i).getD Cell.blank))]) }

/-- The columns _recompute_from_main reads from a non-empty sanitized
ledger (groupby key, the three aggregated columns kept by the summary,
and Total Amount); pandas raises a KeyError when one is absent. -/
def requiredAggCols : List String :=
  ["Customer", "Deposit Amount", "Amount Paid", "Outstanding", "Total Amount"]

/-- The cell of a row under a named column, with NaN for an absent
column (total version of selectCell used by the aggregation model). -/
def cellAt (cols : List String) (row : List Cell) (c : String) : Cell :=
  match cols.findIdx? (fun x => x == c) with
  | some i => (row.get? i).getD Cell.blank
  | none => Cell.blank

/-- Sum of a named numeric column of a frame. -/
def colSum (df : DF) (c : String) : ℚ :=
  (df.rows.map (fun row => qOf (cellAt df.cols row c))).sum

/-- The column set of the Customer Summary frame (line 107). -/
def customerColsDF : List String :=
  ["Customer", "Total Deposit", "Total Paid", "Outstanding", "Status"]

/-- The Purchase Summary frame of lines 113-128. -/
def purchaseDF (amtTot paidTot outTot : ℚ) : DF :=
  { cols := ["Metric", "Value"]
    rows :=
      [[Cell.str "Total Amount (Σ deposit*rate)", Cell.num amtTot],
       [Cell.str "Total Paid", Cell.num paidTot],
       [Cell.str "Total Outstanding", Cell.num outTot],
       [Cell.str "Paid Share (%)",
         Cell.num (if amtTot = 0 then 0 else paidTot / amtTot * 100)],
       [Cell.str "Outstanding Share (%)",
         Cell.num (if amtTot = 0 then 0 else outTot / amtTot * 100)]] }

/-- The Daily Summary frame of lines 130-136. -/
def dailyDF (e oe amtTot paidTot : ℚ) : DF :=
  { cols := ["Metric", "Value"]
    rows :=
      [[Cell.str "Expense", Cell.num e],
       [Cell.str "Other Expense", Cell.num oe],
       [Cell.str "Sum of Total Amount", Cell.num amtTot],
       [Cell.str "Total Paid", Cell.num paidTot],
       [Cell.str "Profit", Cell.num (amtTot - paidTot - e - oe)]] }

/-- Model of _recompute_from_main at the data-frame level, lines 89-138: the
ledger frame is sanitized; an empty sanitized ledger takes the empty
branch (empty summary, zero totals); otherwise the summary is built by
grouping on the Customer cell (missing customers keep their own group;
group order is presentation only) and the totals are column sums; a
non-empty ledger missing a required column makes pandas raise
(modelled as none). -/
def recomputeFramesDF (mainIn : DF) (expense otherExpense : ℚ) : Option Frames :=
  let main := sanitizeDF mainIn
  if main.rows.isEmpty then
    some { main := main
           customer := { cols := customerColsDF, rows := [] }
           purchase := purchaseDF 0 0 0
           daily := dailyDF expense otherExpense 0 0 }
  else if requiredAggCols.all (fun c => main.cols.contains c) then
    let keys := (main.rows.map (fun row => cellAt main.cols row "Customer")).dedup
    let custRows := keys.map (fun k =>
      let g := main.rows.filter (fun row => cellAt main.cols row "Customer" == k)
      let dep := (g.map (fun row => qOf (cellAt main.cols row "Deposit Amount"))).sum
      let paid := (g.map (fun row => qOf (cellAt main.cols row "Amount Paid"))).sum
      let outv := (g.map (fun row => qOf (cellAt main.cols row "Outstanding"))).sum
      [k, Cell.num dep, Cell.num paid, Cell.num outv, statusCell outv])
    some { main := main
           customer := { cols := customerColsDF, rows := custRows }
           purchase := purchaseDF (colSum main "Total Amount")
             (colSum main "Amount Paid") (colSum main "Outstanding")
           daily := dailyDF expense otherExpense (colSum main "Total Amount")
             (colSum main "Amount Paid") }
  else none

/-- An empty ledger frame whose columns arrived in reversed order (for
example from an uploaded workbook whose Main Data sheet has zero rows
and reversed headers). -/
def reversedEmptyMain : DF :=
  { cols := ["Status", "Outstanding", "Amount Paid", "Total Amount",
             "Rate", "Deposit Amount", "Customer", "Date"]
    rows := [] }

/-- The frames bundle holding the reversed-column empty ledger. -/
def reversedEmptyFrames : Frames :=
  { emptyFrames with main := reversedEmptyMain }

/-- A one-row ledger frame whose columns are a permutation of the
canonical order (Customer first), as an uploaded workbook may supply. -/
def permutedMainDF : DF :=
  { cols := ["Customer", "Date", "Deposit Amount", "Rate", "Total Amount",
             "Amount Paid", "Outstanding", "Status"]
    rows := [[Cell.str "Alice", Cell.date 0, Cell.num 100, Cell.num 1,
              Cell.num 100, Cell.num 40, Cell.num 60, Cell.str "stale"]] }

/-- The recompute output on the permuted-column ledger. -/
def permutedBundle : Frames :=
  (recomputeFramesDF permutedMainDF 0 0).getD emptyFrames

/-- The artifact exported from that bundle. -/
def permutedArtifact : List (String × DF) :=
  (toExcelBytes permutedBundle).getD []

/-- A canonical one-row ledger frame, as the app itself produces. -/
def canonicalMainDF : DF :=
  { cols := mainColumns
    rows := [[Cell.date 0, Cell.str "Alice", Cell.num 1, Cell.num 1,
              Cell.num 1, Cell.num 1, Cell.num 0, Cell.str "ok"]] }

/-- The recompute output on the canonical one-row ledger. -/
def canonicalBundle : Frames :=
  (recomputeFramesDF canonicalMainDF 0 0).getD emptyFrames

/-!
Theorems.  Helper lemmas first, then one theorem per claim (with its
witness or counterexample where required).
-/

theorem statusOf_paid_iff (q : ℚ) : statusOf q = Status.Paid ↔ q ≤ 0 := by
  unfold statusOf
  by_cases h : q ≤ 0 <;> simp [h]

theorem sum_map_filter_not {α : Type} (f : α → ℚ) (p : α → Bool) (l : List α) :
    ((l.filter p).map f).sum + ((l.filter (fun a => ! p a)).map f).sum
      = (l.map f).sum := by
  induction l with
  | nil => simp
  | cons a t ih =>
    by_cases h : p a
    · simp only [List.filter_cons, h, List.map_cons, List.sum_cons, Bool.not_true,
        if_true, if_false, ite_false, ite_true, Bool.false_eq_true]
      linarith [ih]
    · have h2 : p a = false := by simpa using h
      simp only [List.filter_cons, h2, List.map_cons, List.sum_cons, Bool.not_false,
        if_true, if_false, ite_false, ite_true, Bool.false_eq_true]
      linarith [ih]

theorem sum_groups {β κ : Type} [BEq κ] [LawfulBEq κ] (key : β → κ) (f : β → ℚ) :
    ∀ (ks : List κ) (l : List β), ks.Nodup → (∀ b ∈ l, key b ∈ ks) →
      (ks.map (fun c => ((l.filter (fun b => key b == c)).map f).sum)).sum
        = (l.map f).sum := by
  intro ks
  induction ks with
  | nil =>
    intro l _ hcov
    cases l with
    | nil => simp
    | cons b t => exact absurd (hcov b (by simp)) (by simp)
  | cons c ks ih =>
    intro l hnd hcov
    have hc : c ∉ ks := (List.nodup_cons.mp hnd).1
    have hnd2 : ks.Nodup := (List.nodup_cons.mp hnd).2
    have hcov2 : ∀ b ∈ l.filter (fun b => !(key b == c)), key b ∈ ks := by
      intro b hb
      rcases List.mem_filter.mp hb with ⟨hbl, hbne⟩
      have h3 := hcov b hbl
      have h4 : ¬ key b = c := by simpa using hbne
      rcases List.mem_cons.mp h3 with h5 | h5
      · exact absurd h5 h4
      · exact h5
    have hfil : ∀ c2 ∈ ks,
        (l.filter (fun b => !(key b == c))).filter (fun b => key b == c2)
          = l.filter (fun b => key b == c2) := by
      intro c2 hc2
      have hne : c2 ≠ c := fun h => hc (h ▸ hc2)
      rw [List.filter_filter]
      apply List.filter_congr
      intro b _
      by_cases hb : key b = c2
      · simp [hb, hne]
      · simp [hb]
    simp only [List.map_cons, List.sum_cons]
    have hmapeq : ks.map (fun c2 => ((l.filter (fun b => key b == c2)).map f).sum)
        = ks.map (fun c2 =>
            (((l.filter (fun b => !(key b == c))).filter (fun b => key b == c2)).map f).sum) := by
      apply List.map_congr_left
      intro c2 hc2
      rw [hfil c2 hc2]
    rw [hmapeq, ih (l.filter (fun b => !(key b == c))) hnd2 hcov2]
    have hsplit := sum_map_filter_not f (fun b => key b == c) l
    linarith [hsplit]

theorem customerKeys_cover (l : List Row) : ∀ r ∈ l, r.customer ∈ customerKeys l :=
  fun _ hr => List.mem_dedup.mpr (List.mem_map_of_mem Row.customer hr)

theorem customerSummary_deposit_sum (l : List Row) :
    ((customerSummary l).map CustRow.totalDeposit).sum = (l.map Row.depositAmount).sum := by
  have h := sum_groups Row.customer Row.depositAmount (customerKeys l) l
    (List.nodup_dedup _) (customerKeys_cover l)
  simpa [customerSummary, customerGroup, List.map_map, Function.comp_def] using h

theorem customerSummary_paid_sum (l : List Row) :
    ((customerSummary l).map CustRow.totalPaid).sum = (l.map Row.amountPaid).sum := by
  have h := sum_groups Row.customer Row.amountPaid (customerKeys l) l
    (List.nodup_dedup _) (customerKeys_cover l)
  simpa [customerSummary, customerGroup, List.map_map, Function.comp_def] using h

theorem customerSummary_outstanding_sum (l : List Row) :
    ((customerSummary l).map CustRow.outstanding).sum = (l.map Row.outstanding).sum := by
  have h := sum_groups Row.customer Row.outstanding (customerKeys l) l
    (List.nodup_dedup _) (customerKeys_cover l)
  simpa [customerSummary, customerGroup, List.map_map, Function.comp_def] using h

/-- Claim C1: after recompute, the customer-summary column sums agree
with the ledger-wide column sums for deposits, payments and
outstanding, and the Total Amount metric of the purchase summary equals
the Sum of Total Amount metric of the daily summary. -/
theorem recompute_sums_reconcile (L : List RawRow) (e oe : ℚ) :
    ((recomputeFromMain L e oe).customer.map CustRow.totalDeposit).sum
        = ((recomputeFromMain L e oe).main.map Row.depositAmount).sum ∧
    ((recomputeFromMain L e oe).customer.map CustRow.totalPaid).sum
        = ((recomputeFromMain L e oe).main.map Row.amountPaid).sum ∧
    ((recomputeFromMain L e oe).customer.map CustRow.outstanding).sum
        = ((recomputeFromMain L e oe).main.map Row.outstanding).sum ∧
    lookupMetric (recomputeFromMain L e oe).purchase "Total Amount (Σ deposit*rate)"
        = lookupMetric (recomputeFromMain L e oe).daily "Sum of Total Amount" :=
  ⟨customerSummary_deposit_sum (sanitize L),
   customerSummary_paid_sum (sanitize L),
   customerSummary_outstanding_sum (sanitize L),
   rfl⟩

/-- Claim C2: the normalizer recomputes Status from the (coerced)
Outstanding value of the same row, overriding whatever status text the
input carried; consequently every ledger row and every customer-summary
row of a recompute output has status Paid exactly when its outstanding
is at most 0, the customer-summary status being derived from the
summed outstanding of the group.  (The app renders NotPaid as the
string "Not Paid"; the spec spells the same value NotPaid.) -/
theorem status_consistency (L : List RawRow) (e oe : ℚ) :
    (∀ r : RawRow, ∀ s : String, sanitizeRow { r with status := s } = sanitizeRow r) ∧
    (∀ r ∈ (recomputeFromMain L e oe).main,
      (r.status = Status.Paid ↔ r.outstanding ≤ 0)) ∧
    (∀ c ∈ (recomputeFromMain L e oe).customer,
      (c.status = Status.Paid ↔ c.outstanding ≤ 0) ∧
      c.outstanding
        = ((customerGroup (recomputeFromMain L e oe).main c.customer).map
            Row.outstanding).sum) := by
  refine ⟨fun r s => rfl, ?_, ?_⟩
  · intro r hr
    rcases List.mem_map.mp hr with ⟨r0, _, rfl⟩
    exact statusOf_paid_iff _
  · intro c hc
    rcases List.mem_map.mp hc with ⟨k, _, rfl⟩
    exact ⟨statusOf_paid_iff _, rfl⟩

/-- Witness for C2 at a concrete one-row ledger. -/
theorem status_consistency_witness :
    (sanitizeRow ⟨none, some "A", some 5, some 1, some 5, some 2, some 3, "stale"⟩
        ∈ (recomputeFromMain
            [⟨none, some "A", some 5, some 1, some 5, some 2, some 3, "stale"⟩] 0 0).main) ∧
    ((sanitizeRow ⟨none, some "A", some 5, some 1, some 5, some 2, some 3, "stale"⟩).status
        = Status.Paid
      ↔ (sanitizeRow ⟨none, some "A", some 5, some 1, some 5, some 2, some 3, "stale"⟩).outstanding
        ≤ 0) := by
  have hm : sanitizeRow ⟨none, some "A", some 5, some 1, some 5, some 2, some 3, "stale"⟩
      ∈ (recomputeFromMain
          [⟨none, some "A", some 5, some 1, some 5, some 2, some 3, "stale"⟩] 0 0).main := by
    simp [recomputeFromMain, sanitize]
  exact ⟨hm,
    (status_consistency
      [⟨none, some "A", some 5, some 1, some 5, some 2, some 3, "stale"⟩] 0 0).2.1 _ hm⟩

theorem sanitize_rawOfRow_sanitize (L : List RawRow) :
    sanitize ((sanitize L).map rawOfRow) = sanitize L := by
  unfold sanitize
  rw [List.map_map, List.map_map]
  apply List.map_congr_left
  intro r _
  rfl

/-- Claim C3: recompute is idempotent — feeding the ledger component of
a recompute output back through recompute with the same expense scalars
reproduces the same four tables. -/
theorem recompute_idempotent (L : List RawRow) (e oe : ℚ) :
    recomputeFromMain ((recomputeFromMain L e oe).main.map rawOfRow) e oe
      = recomputeFromMain L e oe := by
  have h : sanitize ((recomputeFromMain L e oe).main.map rawOfRow) = sanitize L :=
    sanitize_rawOfRow_sanitize L
  simp only [recomputeFromMain] at h ⊢
  rw [h]

theorem lookupMetric_paid_share (l : List Row) :
    lookupMetric (purchaseSummary l) "Paid Share (%)"
      = some (if totalAmountSum l = 0 then 0 else paidTotal l / totalAmountSum l * 100) :=
  rfl

theorem lookupMetric_outstanding_share (l : List Row) :
    lookupMetric (purchaseSummary l) "Outstanding Share (%)"
      = some (if totalAmountSum l = 0 then 0 else outstandingTotal l / totalAmountSum l * 100) :=
  rfl

/-- Claim C4: the purchase-summary share metrics equal
paid_total / total_amount_sum * 100 and
outstanding_total / total_amount_sum * 100 whenever total_amount_sum is
nonzero, and are exactly 0.0 when total_amount_sum is 0 (in particular
for an empty ledger); the truthiness guard of the source evaluates the
division only in the nonzero case, so the division-by-zero branch is
never taken. -/
theorem purchase_share_guard (L : List RawRow) (e oe : ℚ) :
    (totalAmountSum (sanitize L) ≠ 0 →
      lookupMetric (recomputeFromMain L e oe).purchase "Paid Share (%)"
          = some (paidTotal (sanitize L) / totalAmountSum (sanitize L) * 100) ∧
      lookupMetric (recomputeFromMain L e oe).purchase "Outstanding Share (%)"
          = some (outstandingTotal (sanitize L) / totalAmountSum (sanitize L) * 100)) ∧
    (totalAmountSum (sanitize L) = 0 →
      lookupMetric (recomputeFromMain L e oe).purchase "Paid Share (%)" = some 0 ∧
      lookupMetric (recomputeFromMain L e oe).purchase "Outstanding Share (%)" = some 0) := by
  constructor
  · intro h
    constructor
    · rw [show (recomputeFromMain L e oe).purchase = purchaseSummary (sanitize L) from rfl,
        lookupMetric_paid_share, if_neg h]
    · rw [show (recomputeFromMain L e oe).purchase = purchaseSummary (sanitize L) from rfl,
        lookupMetric_outstanding_share, if_neg h]
  · intro h
    constructor
    · rw [show (recomputeFromMain L e oe).purchase = purchaseSummary (sanitize L) from rfl,
        lookupMetric_paid_share, if_pos h]
    · rw [show (recomputeFromMain L e oe).purchase = purchaseSummary (sanitize L) from rfl,
        lookupMetric_outstanding_share, if_pos h]

/-- Witness for C4: a ledger with nonzero total takes the division
branch, and the empty ledger takes the 0.0 branch. -/
theorem purchase_share_guard_witness :
    (totalAmountSum (sanitize [⟨none, some "A", some 1000, some 1, some 1100,
        some 500, some 600, "x"⟩]) ≠ 0 ∧
      lookupMetric (recomputeFromMain [⟨none, some "A", some 1000, some 1, some 1100,
          some 500, some 600, "x"⟩] 0 0).purchase "Paid Share (%)"
        = some (paidTotal (sanitize [⟨none, some "A", some 1000, some 1, some 1100,
            some 500, some 600, "x"⟩])
            / totalAmountSum (sanitize [⟨none, some "A", some 1000, some 1, some 1100,
                some 500, some 600, "x"⟩]) * 100)) ∧
    (totalAmountSum (sanitize ([] : List RawRow)) = 0 ∧
      lookupMetric (recomputeFromMain ([] : List RawRow) 0 0).purchase "Paid Share (%)"
        = some 0) := by
  have h1 : totalAmountSum (sanitize [⟨none, some "A", some 1000, some 1, some 1100,
      some 500, some 600, "x"⟩]) ≠ 0 := by
    norm_num [totalAmountSum, sanitize, sanitizeRow]
  have h2 : totalAmountSum (sanitize ([] : List RawRow)) = 0 := rfl
  exact ⟨⟨h1, ((purchase_share_guard _ 0 0).1 h1).1⟩,
    ⟨h2, ((purchase_share_guard [] 0 0).2 h2).1⟩⟩

/-- Claim C5: the daily summary built by recompute has exactly the five
metrics Expense, Other Expense, Sum of Total Amount, Total Paid, Profit
in that order, with Profit = total_amount_sum - paid_total - expense -
other_expense. -/
theorem daily_summary_metrics (L : List RawRow) (e oe : ℚ) :
    (recomputeFromMain L e oe).daily
      = [("Expense", e),
         ("Other Expense", oe),
         ("Sum of Total Amount", totalAmountSum (sanitize L)),
         ("Total Paid", paidTotal (sanitize L)),
         ("Profit", totalAmountSum (sanitize L) - paidTotal (sanitize L) - e - oe)] :=
  rfl

/-- Claim C7: a customer value that strips to the empty string is
rejected and the stored state is untouched (the handler returns without
replacing the session frames, so the ledger row count is unchanged);
a non-empty customer appends exactly one row and replaces the four
tables with the recomputed bundle. -/
theorem addTransaction_validation (mainDf : List Row) (e oe : ℚ) (d : Option Int)
    (customer : String) (dep rate paid : ℚ) :
    (pyStrip customer = "" →
      addTransaction mainDf e oe d customer dep rate paid = none) ∧
    (pyStrip customer ≠ "" →
      addTransaction mainDf e oe d customer dep rate paid
          = some (recomputeFromMain
              ((mainDf ++ [newRow d customer dep rate paid]).map rawOfRow) e oe) ∧
      (recomputeFromMain
          ((mainDf ++ [newRow d customer dep rate paid]).map rawOfRow) e oe).main.length
        = mainDf.length + 1) := by
  constructor
  · intro h
    simp [addTransaction, h]
  · intro h
    refine ⟨by simp [addTransaction, h], ?_⟩
    simp [recomputeFromMain, sanitize]

/-- Witness for C7: a whitespace-only customer is rejected, a proper
name is accepted and grows the ledger by one row. -/
theorem addTransaction_validation_witness :
    (pyStrip "   " = "" ∧ addTransaction [] 0 0 none "   " 0 0 0 = none) ∧
    (pyStrip "Bob" ≠ "" ∧
      (recomputeFromMain (([] ++ [newRow none "Bob" 0 0 0]).map rawOfRow) 0 0).main.length
        = List.length ([] : List Row) + 1) := by
  have h1 : pyStrip "   " = "" := by decide
  have h2 : pyStrip "Bob" ≠ "" := by decide
  exact ⟨⟨h1, (addTransaction_validation [] 0 0 none "   " 0 0 0).1 h1⟩,
    ⟨h2, ((addTransaction_validation [] 0 0 none "Bob" 0 0 0).2 h2).2⟩⟩

/-- Claim C10: an accepted submission stores Outstanding unclamped as
total_amount - amount_paid (negative when amount_paid exceeds
deposit * rate, where the live preview shows the clamped 0), stores
Status Paid exactly when that unclamped value is at most 0, and appends
exactly that row to the ledger; the live preview instead clamps
Outstanding at 0 and shows the placeholder status when total_amount
is 0. -/
theorem stored_row_unclamped (mainDf : List Row) (e oe : ℚ) (d : Option Int)
    (customer : String) (dep rate paid : ℚ) (h : pyStrip customer ≠ "") :
    (newRow d customer dep rate paid).outstanding = dep * rate - paid ∧
    ((newRow d customer dep rate paid).status = Status.Paid ↔ dep * rate - paid ≤ 0) ∧
    (dep * rate < paid →
      (newRow d customer dep rate paid).outstanding < 0 ∧
      previewOutstanding dep rate paid = 0) ∧
    (addTransaction mainDf e oe d customer dep rate paid).map Bundle.main
        = some (sanitize (mainDf.map rawOfRow) ++ [newRow d customer dep rate paid]) ∧
    (dep * rate = 0 → previewStatus dep rate paid = "-") := by
  refine ⟨rfl, statusOf_paid_iff _, ?_, ?_, ?_⟩
  · intro h2
    constructor
    · show dep * rate - paid < 0
      linarith
    · exact max_eq_right (by linarith)
  · rw [show addTransaction mainDf e oe d customer dep rate paid
          = some (recomputeFromMain
              ((mainDf ++ [newRow d customer dep rate paid]).map rawOfRow) e oe)
        from by simp [addTransaction, h]]
    show some (sanitize ((mainDf ++ [newRow d customer dep rate paid]).map rawOfRow))
        = some (sanitize (mainDf.map rawOfRow) ++ [newRow d customer dep rate paid])
    rw [List.map_append]
    show some (sanitize (mainDf.map rawOfRow ++ [rawOfRow (newRow d customer dep rate paid)])) = _
    rw [sanitize, List.map_append]
    rfl
  · intro h0
    have hng : ¬ (0 : ℚ) < dep * rate := by rw [h0]; exact lt_irrefl 0
    simp [previewStatus, hng]

/-- Witness for C10: the all-zero entry (deposit 0, rate 0, paid 0) is
stored as Paid even though the live preview shows the placeholder. -/
theorem stored_row_unclamped_witness :
    (pyStrip "Ann" ≠ "") ∧
    ((newRow none "Ann" 0 0 0).status = Status.Paid) ∧
    (previewStatus 0 0 0 = "-") := by
  have h : pyStrip "Ann" ≠ "" := by decide
  have thm := stored_row_unclamped [] 0 0 none "Ann" 0 0 0 h
  exact ⟨h, thm.2.1.mpr (by norm_num), thm.2.2.2.2 (by norm_num)⟩

/-- Claim C6: import always yields the four named tables — a sheet
missing from the workbook is replaced by its canonical empty table, a
present sheet is taken from the workbook, and an unreadable or
non-tabular file yields the four canonical empty tables; no read
failure reaches the caller. -/
theorem loadWorkbook_graceful (book : List (String × DF)) :
    loadWorkbook none = emptyFrames ∧
    (sheetLookup book mainSheet = none →
      (loadWorkbook (some book)).main = emptyFrames.main) ∧
    (sheetLookup book customerSheet = none →
      (loadWorkbook (some book)).customer = emptyFrames.customer) ∧
    (sheetLookup book purchaseSheet = none →
      (loadWorkbook (some book)).purchase = emptyFrames.purchase) ∧
    (sheetLookup book dailySheet = none →
      (loadWorkbook (some book)).daily = emptyFrames.daily) ∧
    (∀ df, sheetLookup book mainSheet = some df →
      (loadWorkbook (some book)).main = df) := by
  refine ⟨rfl, ?_, ?_, ?_, ?_, ?_⟩
  · intro h; simp [loadWorkbook, h]
  · intro h; simp [loadWorkbook, h]
  · intro h; simp [loadWorkbook, h]
  · intro h; simp [loadWorkbook, h]
  · intro df h; simp [loadWorkbook, h]

/-- Witness for C6: a workbook with no recognized sheets imports as the
canonical empty bundle. -/
theorem loadWorkbook_graceful_witness :
    (sheetLookup [] mainSheet = none) ∧
    (loadWorkbook (some []) ).main = emptyFrames.main :=
  ⟨rfl, (loadWorkbook_graceful []).2.1 rfl⟩

/-- Counterexample to C8 as stated: exporting a bundle whose ledger
table is empty but carries its columns in reversed order writes the
ledger sheet with the reversed columns, not the fixed order (the
reorder at line 146-147 of the source is guarded by non-emptiness). -/
theorem export_reversed_empty_cols :
    (toExcelBytes reversedEmptyFrames).map
        (fun art => (sheetLookup art mainSheet).map DF.cols)
      = some (some reversedEmptyMain.cols) ∧
    reversedEmptyMain.cols ≠ mainColumns :=
  ⟨rfl, by decide⟩

/-- Claim C8 (amended): on every export of frames whose ledger table is
non-empty and contains the eight canonical columns, the ledger sheet is
written with its columns in the fixed order Date, Customer, Deposit
Amount, Rate, Total Amount, Amount Paid, Outstanding, Status, whatever
the input column order; the artifact always consists of exactly the
four named sheets.  (An empty ledger table is written with its columns
unchanged.) -/
theorem export_fixed_column_order (f : Frames)
    (h : f.main.rows ≠ []) (hc : ∀ c ∈ mainColumns, c ∈ f.main.cols) :
    ∃ m, toExcelBytes f
        = some [(mainSheet, m), (customerSheet, f.customer),
                (purchaseSheet, f.purchase), (dailySheet, f.daily)] ∧
      m.cols = mainColumns := by
  have hne : f.main.rows.isEmpty = false := by
    simpa [List.isEmpty_iff] using h
  have hall : (mainColumns.all (fun c => f.main.cols.contains c)) = true := by
    rw [List.all_eq_true]
    intro c hcm
    exact List.elem_eq_true_of_mem (hc c hcm)
  refine ⟨{ cols := mainColumns
            rows := f.main.rows.map (fun row =>
              mainColumns.map (fun c => (selectCell f.main.cols row c).getD Cell.blank)) },
    ?_, rfl⟩
  unfold toExcelBytes
  rw [hne]
  show (match selectCols f.main mainColumns with
      | none => none
      | some m =>
        some [(mainSheet, m), (customerSheet, f.customer),
              (purchaseSheet, f.purchase), (dailySheet, f.daily)]) = _
  unfold selectCols
  rw [hall]
  rfl

/-- Witness for C8 (amended): a canonical non-empty ledger exports with
the fixed column order. -/
theorem export_fixed_column_order_witness :
    (canonicalMainDF.rows ≠ [] ∧ ∀ c ∈ mainColumns, c ∈ canonicalMainDF.cols) ∧
    (∃ m, toExcelBytes
          { emptyFrames with main := canonicalMainDF }
        = some [(mainSheet, m), (customerSheet, emptyFrames.customer),
                (purchaseSheet, emptyFrames.purchase), (dailySheet, emptyFrames.daily)] ∧
      m.cols = mainColumns) := by
  have h1 : canonicalMainDF.rows ≠ [] := by simp [canonicalMainDF]
  have h2 : ∀ c ∈ mainColumns, c ∈ canonicalMainDF.cols := by decide
  exact ⟨⟨h1, h2⟩,
    export_fixed_column_order { emptyFrames with main := canonicalMainDF } h1 h2⟩

theorem select_row_id (row : List Cell) (hlen : row.length = 8) :
    mainColumns.map (fun c => (selectCell mainColumns row c).getD Cell.blank) = row := by
  rcases row with _ | ⟨a, row⟩
  · simp at hlen
  rcases row with _ | ⟨b, row⟩
  · simp at hlen
  rcases row with _ | ⟨c, row⟩
  · simp at hlen
  rcases row with _ | ⟨d, row⟩
  · simp at hlen
  rcases row with _ | ⟨e, row⟩
  · simp at hlen
  rcases row with _ | ⟨f, row⟩
  · simp at hlen
  rcases row with _ | ⟨g, row⟩
  · simp at hlen
  rcases row with _ | ⟨h8, row⟩
  · simp at hlen
  rcases row with _ | ⟨x, row⟩
  · rfl
  · simp at hlen

theorem selectCols_canonical (rows : List (List Cell))
    (h : ∀ row ∈ rows, row.length = 8) :
    selectCols ⟨mainColumns, rows⟩ mainColumns = some ⟨mainColumns, rows⟩ := by
  have hcond : (mainColumns.all (fun c => mainColumns.contains c)) = true := by decide
  have hrows : rows.map (fun row =>
      mainColumns.map (fun c => (selectCell mainColumns row c).getD Cell.blank)) = rows := by
    induction rows with
    | nil => rfl
    | cons r t ih =>
      simp only [List.map_cons]
      rw [select_row_id r (h r (by simp)), ih (fun row hr => h row (by simp [hr]))]
  simp [selectCols, hcond, hrows]

theorem sanitizeDF_row_lengths (rows : List (List Cell))
    (h : ∀ row ∈ rows, row.length = 8) :
    ∀ row ∈ (sanitizeDF ⟨mainColumns, rows⟩).rows, row.length = 8 := by
  cases rows with
  | nil =>
    intro row hr
    exact absurd hr (by simp [sanitizeDF])
  | cons r t =>
    intro row hr
    have hred : (sanitizeDF ⟨mainColumns, r :: t⟩).rows
        = ((r :: t).map (fun row =>
            (mainColumns.zip row).map (fun p => sanitizeCell p.1 p.2))).map
              (fun row => row.set 7 (statusCell (qOf ((row.get? 6).getD Cell.blank)))) := rfl
    rw [hred] at hr
    rcases List.mem_map.mp hr with ⟨row1, hrow1, rfl⟩
    rcases List.mem_map.mp hrow1 with ⟨row0, hrow0, rfl⟩
    have h0 : row0.length = 8 := h row0 hrow0
    simp [List.length_set, List.length_zip, h0, mainColumns]

/-- Claim C9 (amended): serialization round-trips losslessly for every
bundle recompute produces from a ledger frame in the canonical shape
(canonical column order, one cell per column) — in particular for every
ledger maintained through the entry form.  A ledger frame whose columns
arrive in a different order does not round-trip, because export rewrites
the column order (see the counterexample). -/
theorem export_import_roundtrip (mainIn : DF) (e oe : ℚ) (T : Frames)
    (hcols : mainIn.cols = mainColumns)
    (hlen : ∀ row ∈ mainIn.rows, row.length = 8)
    (hT : recomputeFramesDF mainIn e oe = some T) :
    ∃ art, toExcelBytes T = some art ∧ loadWorkbook (some art) = T := by
  obtain ⟨cols, rows⟩ := mainIn
  have hc2 : cols = mainColumns := hcols
  subst hc2
  have hT2 : T = (recomputeFramesDF ⟨mainColumns, rows⟩ e oe).getD emptyFrames := by
    rw [hT]
    rfl
  subst hT2
  cases rows with
  | nil => exact ⟨_, rfl, rfl⟩
  | cons r t =>
    have hlen2 : ∀ row ∈ (sanitizeDF ⟨mainColumns, r :: t⟩).rows, row.length = 8 :=
      sanitizeDF_row_lengths (r :: t) (fun row hr => hlen row hr)
    have hsel : selectCols (sanitizeDF ⟨mainColumns, r :: t⟩) mainColumns
        = some (sanitizeDF ⟨mainColumns, r :: t⟩) :=
      selectCols_canonical (sanitizeDF ⟨mainColumns, r :: t⟩).rows hlen2
    refine ⟨[(mainSheet, sanitizeDF ⟨mainColumns, r :: t⟩),
              (customerSheet,
                ((recomputeFramesDF ⟨mainColumns, r :: t⟩ e oe).getD emptyFrames).customer),
              (purchaseSheet,
                ((recomputeFramesDF ⟨mainColumns, r :: t⟩ e oe).getD emptyFrames).purchase),
              (dailySheet,
                ((recomputeFramesDF ⟨mainColumns, r :: t⟩ e oe).getD emptyFrames).daily)],
      ?_, ?_⟩
    · rw [show toExcelBytes ((recomputeFramesDF ⟨mainColumns, r :: t⟩ e oe).getD emptyFrames)
            = (match selectCols (sanitizeDF ⟨mainColumns, r :: t⟩) mainColumns with
               | none => none
               | some m =>
                 some [(mainSheet, m),
                       (customerSheet,
                         ((recomputeFramesDF ⟨mainColumns, r :: t⟩ e oe).getD emptyFrames).customer),
                       (purchaseSheet,
                         ((recomputeFramesDF ⟨mainColumns, r :: t⟩ e oe).getD emptyFrames).purchase),
                       (dailySheet,
                         ((recomputeFramesDF ⟨mainColumns, r :: t⟩ e oe).getD emptyFrames).daily)])
          from rfl, hsel]
    · rfl

/-- Counterexample to C9 as stated: a recompute output whose ledger
columns arrived in a permuted order exports successfully, but importing
the artifact yields a different bundle (the ledger sheet was written
with the canonical column order, not the permuted one). -/
theorem roundtrip_permuted_cols :
    recomputeFramesDF permutedMainDF 0 0 = some permutedBundle ∧
    toExcelBytes permutedBundle = some permutedArtifact ∧
    loadWorkbook (some permutedArtifact) ≠ permutedBundle :=
  ⟨rfl, rfl, fun h => absurd (congrArg (fun fr => fr.main.cols) h) (by decide)⟩

/-- Witness for C9 (amended) at a concrete canonical one-row ledger. -/
theorem export_import_roundtrip_witness :
    (canonicalMainDF.cols = mainColumns ∧
      (∀ row ∈ canonicalMainDF.rows, row.length = 8) ∧
      recomputeFramesDF canonicalMainDF 0 0 = some canonicalBundle) ∧
    (∃ art, toExcelBytes canonicalBundle = some art ∧
      loadWorkbook (some art) = canonicalBundle) := by
  have h1 : canonicalMainDF.cols = mainColumns := rfl
  have h2 : ∀ row ∈ canonicalMainDF.rows, row.length = 8 := by decide
  have h3 : recomputeFramesDF canonicalMainDF 0 0 = some canonicalBundle := rfl
  exact ⟨⟨h1, h2, h3⟩,
    export_import_roundtrip canonicalMainDF 0 0 canonicalBundle h1 h2 h3⟩
